import Mathlib

/-!
Verification of the Lumina-PDF-Bot retrieval core against its specification.

The development shallowly embeds the Python sources:
  - src/engine/lightweight_embeddings.py  (TF-IDF vectorizer lifecycle)
  - src/engine/vector_store.py            (similarity search, persistence)
  - src/engine/rag_engine.py              (ingestion pipeline, deletion)
  - src/services/chat_manager.py          (conversation store)
  - src/utils/utils.py                    (filename sanitization)

Pure functions become Lean functions; the mutable objects become explicit
state records threaded through the operations; Python exceptions become
Except values, with each try/except boundary modelled as an inner
(exception-throwing) function plus an outer (catching) wrapper, exactly as
in the source.  Fallible external effects (file I/O, the LLM call) are
modelled by outcome parameters supplied to the orchestrator, so every run
of the pipeline is a deterministic function of its inputs.
-/

namespace Lumina

/-! ## Vectorizer: src/engine/lightweight_embeddings.py

The sklearn TfidfVectorizer that the class wraps is external library code;
it is modelled at the granularity the claims observe: a document is a list
of tokens, fitting builds the (deduplicated) vocabulary of the fitting
corpus, and transforming projects a document onto that vocabulary by term
counts.  The stop-word list, bigram extraction, max_features cap and idf
weighting only change which terms enter the vocabulary and how the kept
columns are weighted; they are orthogonal to the fit-once lifecycle and
the fixed-vocabulary projection that the claims are about. -/

/-- Error raised by the embedding layer; the source raises
`ValueError("Vectorizer not fitted yet")`, the spec calls this condition
`NotFittedError`. -/
inductive EmbError
  | valueError (msg : String)
deriving DecidableEq

/-- State of a `LightweightEmbeddings` instance: the fitted vocabulary of
the wrapped TfidfVectorizer (empty before fitting) and the `is_fitted`
flag set by the first `embed_documents` call. -/
structure LightweightEmbeddings where
  vocab : List String
  is_fitted : Bool
deriving DecidableEq

/-- A freshly constructed `LightweightEmbeddings()`: no vocabulary,
`is_fitted = False`. -/
def LightweightEmbeddings.init : LightweightEmbeddings := ⟨[], false⟩

/-- Vocabulary built by `TfidfVectorizer.fit` from a corpus: the distinct
terms occurring in it. -/
def buildVocab (texts : List (List String)) : List String :=
  texts.flatten.dedup

/-- Projection of one document through a fixed vocabulary
(`TfidfVectorizer.transform` on a single row): one column per vocabulary
term, counting that term's occurrences.  Terms of the document that are
not in the vocabulary contribute to no column. -/
def transformDoc (vocab : List String) (doc : List String) : List ℚ :=
  vocab.map (fun t => (doc.count t : ℚ))

/-- `LightweightEmbeddings.embed_documents`: on an unfitted instance runs
`fit_transform` (builds the vocabulary, sets `is_fitted`); on a fitted
instance runs `transform` through the existing vocabulary. -/
def embed_documents (st : LightweightEmbeddings) (texts : List (List String)) :
    LightweightEmbeddings × List (List ℚ) :=
  if st.is_fitted then
    (st, texts.map (transformDoc st.vocab))
  else
    (⟨buildVocab texts, true⟩, texts.map (transformDoc (buildVocab texts)))

/-- `LightweightEmbeddings.embed_query`: raises `ValueError` when the
vectorizer is not yet fitted, otherwise transforms the query through the
fitted vocabulary. -/
def embed_query (st : LightweightEmbeddings) (q : List String) :
    Except EmbError (List ℚ) :=
  if st.is_fitted then
    .ok (transformDoc st.vocab q)
  else
    .error (.valueError "Vectorizer not fitted yet")

/-- Runs a sequence of `embed_documents` calls on one instance, returning
the final state and every call's returned matrix. -/
def embedRuns : LightweightEmbeddings → List (List (List String)) →
    LightweightEmbeddings × List (List (List ℚ))
  | st, [] => (st, [])
  | st, b :: bs =>
    let r := embed_documents st b
    let rest := embedRuns r.1 bs
    (rest.1, r.2 :: rest.2)

/-! ## Similarity search: src/engine/vector_store.py -/

/-- A lightweight vectorstore, the dictionary
`{"vectors": vectors, "texts": chunks}` built by `create_embeddings`:
the chunk-vector matrix and the chunk texts, row `i` of `vectors`
belonging to `texts[i]`. -/
structure Vectorstore where
  vectors : List (List ℚ)
  texts : List String
deriving DecidableEq

/-- Dot product of two vectors (missing coordinates count as absent,
matching equal-length use in the source). -/
def dotQ (u v : List ℚ) : ℚ :=
  ((u.zip v).map (fun p => p.1 * p.2)).sum

/-- Cosine similarity of `u` and `v` as computed by
`sklearn.metrics.pairwise.cosine_similarity`.  The true cosine
`d / (sqrt (u.u) * sqrt (v.v))` is irrational in general, so the score is
represented by the order-isomorphic rational `d * abs d / ((u.u) * (v.v))`
(that is, `cos * abs cos`): the map `x -> x * abs x` is strictly monotone,
so two vectors have equal modelled scores exactly when their cosines are
equal, and the relative order of all scores — the only thing the ranking
code observes — is preserved.  Division by zero yields 0 in ℚ, matching
the library convention that a zero vector has similarity 0. -/
def cosineSim (u v : List ℚ) : ℚ :=
  (dotQ u v * |dotQ u v|) / (dotQ u u * dotQ v v)

/-- The score row `cosine_similarity([query_vector], vectors)[0]`: the
similarity of the query vector to every stored chunk vector, in storage
order. -/
def similarities (q : List ℚ) (vs : Vectorstore) : List ℚ :=
  vs.vectors.map (cosineSim q)

/-- `np.argsort(similarities)`: the indices `0..n-1` sorted by ascending
score.  Modelled as a stable sort (equal scores keep their original
relative order), the deterministic reading of argsort (and what numpy's
sort does on the small arrays involved). -/
def argsort (s : List ℚ) : List ℕ :=
  List.insertionSort (fun i j => s.getD i 0 ≤ s.getD j 0) (List.range s.length)

/-- `np.argsort(similarities)[::-1]`: the index ranking by descending
score. -/
def rankingDesc (s : List ℚ) : List ℕ :=
  (argsort s).reverse

/-- `top_indices = np.argsort(similarities)[::-1][:k]`. -/
def searchRanking (s : List ℚ) (k : ℕ) : List ℕ :=
  (rankingDesc s).take k

/-- `DocumentVectorStore.search` after the query has been embedded: ranks
every stored chunk by similarity to the query vector and returns the
top-`k` `(chunk_text, score)` pairs. -/
def search (q : List ℚ) (vs : Vectorstore) (k : ℕ) : List (String × ℚ) :=
  let s := similarities q vs
  (searchRanking s k).map (fun i => (vs.texts.getD i "", s.getD i 0))

/-! ## Association lists

Python dictionaries are modelled as insertion-ordered association lists
with unique keys, the operations mirroring dict lookup, assignment and
deletion. -/

/-- Dictionary lookup `d.get(k)` / `k in d`. -/
def aLookup {α : Type} : List (String × α) → String → Option α
  | [], _ => none
  | (k', v) :: rest, k => if k' = k then some v else aLookup rest k

/-- Dictionary assignment `d[k] = v`: updates in place, or appends a new
key at the end (Python dicts preserve insertion order). -/
def aInsert {α : Type} : List (String × α) → String → α → List (String × α)
  | [], k, v => [(k, v)]
  | (k', v') :: rest, k, v =>
    if k' = k then (k, v) :: rest else (k', v') :: aInsert rest k v

/-- Dictionary deletion `del d[k]` (no-op when the key is absent, like the
guarded `del` in the source). -/
def aErase {α : Type} : List (String × α) → String → List (String × α)
  | [], _ => []
  | (k', v) :: rest, k =>
    if k' = k then aErase rest k else (k', v) :: aErase rest k

/-! ## Vectorstore persistence: src/engine/vector_store.py

The vectorstore directory `VECTOR_STORE_DIR` is modelled as a map from
document name to the state of that document's directory: a key that is
present means `VECTOR_STORE_DIR/<doc>` exists, its value is the content
of `vectors.pkl` when that file is present.  A pickle file either
deserializes back to the value that was dumped or is corrupt, in which
case `pickle.load` raises. -/

/-- Content of a `vectors.pkl` file: either a well-formed pickle of a
vectorstore, or bytes that `pickle.load` fails on. -/
inductive Blob
  | valid (store : Vectorstore)
  | corrupt (n : ℕ)
deriving DecidableEq

/-- The vectorstore directory: document name to directory state. -/
abbrev VectorFS := List (String × Option Blob)

/-- Outcome of the file I/O inside `save_vectorstore`:
everything written, nothing written (`mkdir`/`open` failed), or the dump
interrupted leaving a truncated file. -/
inductive SaveOutcome
  | ok
  | failClean (msg : String)
  | failPartial (msg : String)
deriving DecidableEq

/-- `save_vectorstore(vectorstore, doc_name)`: creates the document's
directory (`mkdir(parents=True, exist_ok=True)`), then pickles the store
into `vectors.pkl`; any failure is re-raised as
`RuntimeError("Failed to save vectorstore: ...")`.  A clean failure
leaves an existing file as it was; an interrupted dump leaves a corrupt
file in place of the old one. -/
def save_vectorstore (fs : VectorFS) (doc : String) (store : Vectorstore)
    (out : SaveOutcome) : VectorFS × Except String Unit :=
  match out with
  | .ok => (aInsert fs doc (some (.valid store)), .ok ())
  | .failClean m =>
    (match aLookup fs doc with
     | none => aInsert fs doc none
     | some _ => fs,
     .error ("Failed to save vectorstore: " ++ m))
  | .failPartial m =>
    (aInsert fs doc (some (.corrupt 0)), .error ("Failed to save vectorstore: " ++ m))

/-- Body of `load_vectorstore` (inside its `try`): `None` when the
directory does not exist, `None` when `vectors.pkl` is missing,
the unpickled store otherwise; a corrupt pickle raises. -/
def load_vectorstore_inner (fs : VectorFS) (doc : String) :
    Except String (Option Vectorstore) :=
  match aLookup fs doc with
  | none => .ok none
  | some none => .ok none
  | some (some (.valid store)) => .ok (some store)
  | some (some (.corrupt _)) => .error "UnpicklingError"

/-- `load_vectorstore(doc_name)`: the body above with its
`except Exception: return None` wrapper. -/
def load_vectorstore (fs : VectorFS) (doc : String) : Option Vectorstore :=
  match load_vectorstore_inner fs doc with
  | .ok r => r
  | .error _ => none

/-! ## Conversation store: src/services/chat_manager.py -/

/-- One chat message as stored by `add_message`. -/
structure Message where
  role : String
  content : String
  timestamp : String
  metadata : List (String × String)
deriving DecidableEq

/-- Per-document log entry `{messages, created_at, updated_at}`. -/
structure ChatData where
  messages : List Message
  created_at : String
  updated_at : String
deriving DecidableEq

/-- In-memory history: document name to its log. -/
abbrev History := List (String × ChatData)

/-- Content of the durable `chat_history.json` file: either a valid
serialization of a history (JSON round-trips) or bytes that
`json.load` fails on. -/
inductive HistBlob
  | valid (h : History)
  | corrupt (raw : String)
deriving DecidableEq

/-- `json.load` on a durable file: the stored history, or a parse
failure. -/
def jsonLoadHist : HistBlob → Option History
  | .valid h => some h
  | .corrupt _ => none

/-- The conversation store's slice of the filesystem: the durable file,
the `.corrupted` forensic copy, and the timestamped backup copies. -/
structure StoreFS where
  storage : Option HistBlob
  corrupted : Option HistBlob
  backups : List (String × HistBlob)
deriving DecidableEq

/-- Errors of the conversation store layer. -/
inductive ChatError
  | valueError (msg : String)
  | jsonDecodeError (msg : String)
deriving DecidableEq

/-- Message text of a Python exception (`str(e)`). -/
def ChatError.msg : ChatError → String
  | .valueError m => m
  | .jsonDecodeError m => m

/-- Body of `_load_history` (inside its `try`): reads and parses the
durable file when it exists; a corrupted file raises `JSONDecodeError`. -/
def load_history_inner (fs : StoreFS) : Except ChatError History :=
  match fs.storage with
  | some b =>
    match jsonLoadHist b with
    | some h => .ok h
    | none => .error (.jsonDecodeError "Expecting value")
  | none => .ok []

/-- `_load_history` as run by the constructor: on any parse failure the
in-memory history starts empty and, since the file exists, a copy of it
is preserved under the `.corrupted` suffix (`shutil.copy2` leaves the
original in place). -/
def load_history (fs : StoreFS) : History × StoreFS :=
  match load_history_inner fs with
  | .ok h => (h, fs)
  | .error _ =>
    match fs.storage with
    | some b => ([], { fs with corrupted := some b })
    | none => ([], fs)

/-- Name of the timestamped backup file written by `_create_backup`. -/
def backupName (t : String) : String := "chat_history.backup_" ++ t

/-- `_create_backup`: when the durable file exists, copy it to a
timestamped backup path (`t` is the formatted wall-clock time). -/
def create_backup (fs : StoreFS) (t : String) : StoreFS :=
  match fs.storage with
  | some b => { fs with backups := aInsert fs.backups (backupName t) b }
  | none => fs

/-- `_save`: serializes the whole in-memory history to the durable file;
the temp-file-plus-atomic-rename strategy is modelled as one atomic
replacement of the file content. -/
def save_history (h : History) (fs : StoreFS) : StoreFS :=
  { fs with storage := some (.valid h) }

/-! ## Character-level string helpers

The Python string operations used by the sources (str.lower, str.split,
str.replace, str.startswith, str.join) are modelled structurally over the
character list of the string, which is what they do on the ASCII data
involved. -/

/-- ASCII lowercasing of one character (`str.lower` per character). -/
def lowerChar (c : Char) : Char :=
  if c.isUpper then Char.ofNat (c.toNat + 32) else c

/-- `str.lower()`. -/
def toLowerStr (s : String) : String :=
  (s.data.map lowerChar).asString

/-- Whether the first character list leads the second
(`str.startswith` over characters). -/
def charsLead : List Char → List Char → Bool
  | [], _ => true
  | _ :: _, [] => false
  | a :: as, b :: bs => a == b && charsLead as bs

/-- Whether a staged file name matches the glob `pdf_name.*` used by
`delete_pdf`. -/
def globMatches (pdf f : String) : Bool :=
  charsLead (pdf.data ++ ['.']) f.data

/-- `sep.join(parts)`. -/
def strJoin (sep : String) : List String → String
  | [] => ""
  | [x] => x
  | x :: rest => x ++ sep ++ strJoin sep rest

/-- Splits a character list into its maximal whitespace-free words (the
composition of the whitespace-run collapse and `strip` in
`sanitize_filename`). -/
def wordsAux : List Char → List Char → List (List Char)
  | [], cur => if cur.isEmpty then [] else [cur.reverse]
  | c :: rest, cur =>
    if c.isWhitespace then
      if cur.isEmpty then wordsAux rest [] else cur.reverse :: wordsAux rest []
    else wordsAux rest (c :: cur)

/-- Joins words with a separator character. -/
def joinWords (sep : Char) : List (List Char) → List Char
  | [] => []
  | [w] => w
  | w :: rest => w ++ sep :: joinWords sep rest

/-- Doubles every double quote, the CSV escaping of `export_chat`. -/
def escQuotesCsv : List Char → List Char
  | [] => []
  | c :: rest =>
    if c == '"' then '"' :: '"' :: escQuotesCsv rest else c :: escQuotesCsv rest

/-- Backslash-escapes every double quote (JSON string encoding). -/
def escQuotesJson : List Char → List Char
  | [] => []
  | c :: rest =>
    if c == '"' then '\\' :: '"' :: escQuotesJson rest else c :: escQuotesJson rest

/-! ## Engine state and orchestration: src/engine/rag_engine.py -/

/-- The application state the engine operates on: the staged upload files
(`PDF_UPLOAD_DIR`), the vectorstore directory, the in-memory chat
history, and the conversation store's files. -/
structure AppState where
  uploads : List String
  vstores : VectorFS
  chat : History
  storeFS : StoreFS
deriving DecidableEq

/-- `ChatManager.clear_history(pdf_name)`: backs up the durable file
(best effort), deletes the document's log (`None` clears all), and
persists the whole store. -/
def clear_history (st : AppState) (pdf : Option String) (t : String) : AppState :=
  let fs1 := create_backup st.storeFS t
  let chat1 := match pdf with
    | none => []
    | some p => aErase st.chat p
  { st with chat := chat1, storeFS := save_history chat1 fs1 }

/-- `RAGEngine.delete_pdf(pdf_name)`: unlinks every staged file matching
the glob `pdf_name.*`, removes the vectorstore directory if it exists,
clears the chat history, and reports success. -/
def delete_pdf (st : AppState) (pdf : String) (t : String) : AppState × Bool :=
  let st1 : AppState :=
    { st with
      uploads := st.uploads.filter (fun f => !globMatches pdf f),
      vstores := aErase st.vstores pdf }
  (clear_history st1 (some pdf) t, true)

/-! ## Filename handling: src/utils/utils.py -/

/-- Index of the last extension separator, `os.path.splitext` style:
a dot that has some non-dot character of the base name before it. -/
def splitext (s : String) : String × String :=
  let cs := s.toList
  match ((List.range cs.length).filter (fun i => cs.getD i ' ' == '.')).getLast? with
  | none => (s, "")
  | some i =>
    if (cs.take i).all (fun c => c == '.') then (s, "")
    else ((cs.take i).asString, (cs.drop i).asString)

/-- `Path(name).stem`: the final name with its last suffix removed. -/
def stem (s : String) : String := (splitext s).1

/-- `sanitize_filename`: strips the extension, keeps only alphanumerics,
whitespace, hyphens and underscores, collapses whitespace runs, trims,
replaces spaces by underscores, truncates to 100 characters, and
re-appends the extension. -/
def sanitize_filename (filename : String) : String :=
  let p := splitext filename
  let kept := p.1.data.filter
    (fun c => c.isAlphanum || c.isWhitespace || c == '-' || c == '_')
  ((joinWords '_' (wordsAux kept [])).take 100).asString ++ p.2

/-! ## Ingestion pipeline: src/engine/rag_engine.py process_document

The fallible collaborators (text extraction, chunking, embedding, the
pickle dump, the LLM summary) are supplied as outcome parameters, so a
run of the pipeline is a deterministic function of its inputs; the
orchestration, staging, cleanup and result construction are the
source's. -/

/-- Result dictionary of `process_document`. -/
structure ProcResult where
  status : String
  error : Option String
  summary : Option String
  page_count : ℕ
  pdf_name : Option String
  chunks_created : Option ℕ
deriving DecidableEq

/-- The error dictionary built by the `except` branch of
`process_document`. -/
def errorResult (msg : String) : ProcResult :=
  ⟨"error", some msg, none, 0, none, none⟩

/-- Writing the uploaded bytes to `PDF_UPLOAD_DIR/safe_filename` (an
existing file is overwritten, so presence is idempotent). -/
def insertFile (uploads : List String) (f : String) : List String :=
  if uploads.contains f then uploads else uploads ++ [f]

/-- `doc_path.unlink()` in the cleanup branch. -/
def removeFile (uploads : List String) (f : String) : List String :=
  uploads.filter (fun g => g != f)

/-- Net effect of the cleanup branch on the uploads: stage the file, then
unlink it. -/
def cleanUploads (uploads : List String) (safe : String) : List String :=
  removeFile (insertFile uploads safe) safe

/-- `RAGEngine.process_document`: stages the upload, then runs
extract → page count → chunk → embed → save → summarize; any failure is
caught at the engine boundary, the staged file is unlinked, and a
structured error result is returned. -/
def process_document (st : AppState) (filename : String)
    (extract : Except String String) (pages : ℕ)
    (split : Except String (List String)) (embed : Except String Vectorstore)
    (saveOut : SaveOutcome) (summarize : Except String String) :
    AppState × ProcResult :=
  let safe := sanitize_filename filename
  let doc := stem safe
  let staged : AppState := { st with uploads := insertFile st.uploads safe }
  match extract with
  | .error m => ({ staged with uploads := removeFile staged.uploads safe }, errorResult m)
  | .ok _ =>
    match split with
    | .error m => ({ staged with uploads := removeFile staged.uploads safe }, errorResult m)
    | .ok chunks =>
      match embed with
      | .error m => ({ staged with uploads := removeFile staged.uploads safe }, errorResult m)
      | .ok store =>
        match save_vectorstore staged.vstores doc store saveOut with
        | (vs1, .error m) =>
          ({ staged with uploads := removeFile staged.uploads safe, vstores := vs1 },
           errorResult m)
        | (vs1, .ok _) =>
          let st2 : AppState := { staged with vstores := vs1 }
          match summarize with
          | .error m => ({ st2 with uploads := removeFile st2.uploads safe }, errorResult m)
          | .ok summary =>
            (st2, ⟨"success", none, some summary, pages, some doc, some chunks.length⟩)

/-! ## Chat export: src/services/chat_manager.py export_chat -/

/-- JSON string literal with quotes escaped (models `json.dumps` string
encoding at the precision the claims need). -/
def jsonStr (s : String) : String :=
  "\"" ++ (escQuotesJson s.data).asString ++ "\""

/-- One `"key": value` JSON field. -/
def jsonKV (k v : String) : String := jsonStr k ++ ": " ++ v

/-- A JSON object from rendered fields. -/
def jsonObj (fields : List String) : String :=
  "\x7b" ++ strJoin ", " fields ++ "\x7d"

/-- JSON rendering of one message. -/
def jsonMessage (m : Message) : String :=
  jsonObj [jsonKV "role" (jsonStr m.role), jsonKV "content" (jsonStr m.content),
    jsonKV "timestamp" (jsonStr m.timestamp),
    jsonKV "metadata" (jsonObj (m.metadata.map (fun p => jsonKV p.1 (jsonStr p.2))))]

/-- `json.dumps(chat_data, indent=2)`: structural JSON serialization of a
document's log (indentation whitespace abstracted). -/
def jsonDumpChatData (cd : ChatData) : String :=
  jsonObj
    [jsonKV "messages"
      ("[" ++ strJoin ", " (cd.messages.map jsonMessage) ++ "]"),
     jsonKV "created_at" (jsonStr cd.created_at),
     jsonKV "updated_at" (jsonStr cd.updated_at)]

/-- One CSV row: role, content (with `"` doubled), timestamp, each
quoted. -/
def csvRow (m : Message) : String :=
  "\"" ++ m.role ++ "\",\"" ++ (escQuotesCsv m.content.data).asString ++ "\",\"" ++
    m.timestamp ++ "\""

/-- The `csv` branch of `export_chat`: header line plus one row per
message. -/
def export_csv (cd : ChatData) : String :=
  strJoin "\n" ("Role,Content,Timestamp" :: cd.messages.map csvRow)

/-- Body of `export_chat` (inside its `try`): unknown documents get a
fixed string, `json`/`csv` (case-insensitive) are serialized, any other
format raises `ValueError` — the spec's `UnsupportedFormatError`. -/
def export_chat_inner (hist : History) (pdf fmt : String) :
    Except ChatError String :=
  match aLookup hist pdf with
  | none => .ok "No chat history found"
  | some cd =>
    if toLowerStr fmt = "json" then .ok (jsonDumpChatData cd)
    else if toLowerStr fmt = "csv" then .ok (export_csv cd)
    else .error (.valueError ("Unsupported format: " ++ fmt))

/-- `export_chat`: the body above with its
`except Exception: return f"Export error: {str(e)}"` wrapper, which turns
every raised error into a normally returned string. -/
def export_chat (hist : History) (pdf fmt : String) : Except ChatError String :=
  match export_chat_inner hist pdf fmt with
  | .ok s => .ok s
  | .error e => .ok ("Export error: " ++ e.msg)

/-! ## Helper lemmas -/

/-- Mapping positional lookup over the index range recovers the list. -/
theorem map_getD_range {α : Type} (l : List α) (d : α) :
    (List.range l.length).map (fun i => l.getD i d) = l := by
  induction l with
  | nil => rfl
  | cons a l ih =>
    rw [List.length_cons, List.range_succ_eq_map, List.map_cons, List.map_map]
    have hc : ((fun i => (a :: l).getD i d) ∘ Nat.succ) = (fun i => l.getD i d) := by
      funext i
      rfl
    rw [hc, ih]
    rfl

/-- An increasing pair of indices below `n` is a sublist of `range n`. -/
theorem pair_sublist_range {i j n : ℕ} (hij : i < j) (hj : j < n) :
    List.Sublist [i, j] (List.range n) := by
  induction n with
  | zero => omega
  | succ n ih =>
    rw [List.range_succ]
    rcases Nat.lt_or_ge j n with h | h
    · exact (ih h).trans (List.sublist_append_left _ _)
    · have hjn : j = n := Nat.le_antisymm (Nat.lt_succ_iff.mp hj) h
      subst hjn
      have h1 : List.Sublist [i] (List.range j) :=
        List.singleton_sublist.mpr (List.mem_range.mpr hij)
      exact h1.append (List.Sublist.refl [j])

/-- Lookup after dictionary assignment. -/
theorem aLookup_aInsert {α : Type} (l : List (String × α)) (k k' : String) (v : α) :
    aLookup (aInsert l k v) k' = if k = k' then some v else aLookup l k' := by
  induction l with
  | nil =>
    by_cases hk : k = k' <;> simp [aInsert, aLookup, hk]
  | cons p rest ih =>
    obtain ⟨k0, v0⟩ := p
    by_cases h : k0 = k
    · subst h
      by_cases hk : k0 = k' <;> simp [aInsert, aLookup, hk]
    · by_cases hk : k0 = k'
      · subst hk
        have hne : k ≠ k0 := fun he => h he.symm
        simp [aInsert, aLookup, h, hne]
      · simp [aInsert, aLookup, h, hk, ih]

/-- Deleting an absent key is a no-op. -/
theorem aErase_of_lookup_none {α : Type} (l : List (String × α)) (k : String)
    (h : aLookup l k = none) : aErase l k = l := by
  induction l with
  | nil => rfl
  | cons p rest ih =>
    obtain ⟨k0, v0⟩ := p
    by_cases hk : k0 = k
    · subst hk
      simp [aLookup] at h
    · simp [aLookup, hk] at h
      simp [aErase, hk, ih h]

/-- After deleting a key it is no longer present. -/
theorem aLookup_aErase_self {α : Type} (l : List (String × α)) (k : String) :
    aLookup (aErase l k) k = none := by
  induction l with
  | nil => rfl
  | cons p rest ih =>
    obtain ⟨k0, v0⟩ := p
    by_cases hk : k0 = k
    · simp [aErase, hk, ih]
    · simp [aErase, aLookup, hk, ih]

/-- The argsort of a score list ranks every stored index exactly once. -/
theorem length_argsort (s : List ℚ) : (argsort s).length = s.length := by
  rw [argsort, (List.perm_insertionSort _ _).length_eq, List.length_range]

/-- A sequence of `embed_documents` calls on an already-fitted instance
leaves the state untouched and projects every batch through the existing
vocabulary. -/
theorem embedRuns_fitted (st : LightweightEmbeddings) (bs : List (List (List String)))
    (h : st.is_fitted = true) :
    embedRuns st bs = (st, bs.map (fun b => b.map (transformDoc st.vocab))) := by
  induction bs with
  | nil => simp [embedRuns]
  | cons b bs ih => simp [embedRuns, embed_documents, h, ih]

/-! ## Claim theorems -/

/-- C3: over any sequence of `embed_documents` calls on one vectorizer
instance, the vocabulary is built exactly once, from the first call's
document collection; every call's output projects its batch through that
fixed vocabulary; the projection has one column per vocabulary term (the
vocabulary never grows) and drops any term absent from it. -/
theorem embed_documents_fit_once (b : List (List String))
    (bs : List (List (List String))) :
    (embedRuns LightweightEmbeddings.init (b :: bs)).1 =
      ⟨buildVocab b, true⟩ ∧
    (embedRuns LightweightEmbeddings.init (b :: bs)).2 =
      (b :: bs).map (fun batch => batch.map (transformDoc (buildVocab b))) ∧
    (∀ doc : List String,
      (transformDoc (buildVocab b) doc).length = (buildVocab b).length) ∧
    (∀ (doc : List String) (t : String), t ∉ buildVocab b →
      transformDoc (buildVocab b) (doc ++ [t]) = transformDoc (buildVocab b) doc) := by
  have hfirst : embed_documents LightweightEmbeddings.init b =
      (⟨buildVocab b, true⟩, b.map (transformDoc (buildVocab b))) := by
    simp [embed_documents, LightweightEmbeddings.init]
  have hrest := embedRuns_fitted ⟨buildVocab b, true⟩ bs rfl
  refine ⟨?_, ?_, ?_, ?_⟩
  · simp [embedRuns, hfirst, hrest]
  · simp [embedRuns, hfirst, hrest]
  · intro doc
    simp [transformDoc]
  · intro doc t ht
    unfold transformDoc
    refine List.map_congr_left ?_
    intro a ha
    have hne : a ≠ t := fun he => ht (he ▸ ha)
    simp [List.count_append, List.count_cons, hne]

/-- Witness for C3 at a concrete run: the vocabulary after two calls is
the first batch's, and an out-of-vocabulary token does not change a
projection. -/
theorem embed_documents_fit_once_witness :
    (embedRuns LightweightEmbeddings.init [[["cat"]], [["dog"]]]).1 =
      ⟨["cat"], true⟩ ∧
    transformDoc (buildVocab [["cat"]]) (["cat"] ++ ["dog"]) =
      transformDoc (buildVocab [["cat"]]) ["cat"] := by
  have h := embed_documents_fit_once [["cat"]] [[["dog"]]]
  have hv : buildVocab [["cat"]] = ["cat"] := rfl
  exact ⟨hv ▸ h.1, h.2.2.2 ["cat"] "dog" (by rw [hv]; simp)⟩

/-- C7: calling `embed_query` on a vectorizer on which no
`embed_documents` call has occurred (the freshly constructed state) fails
with the not-fitted error. -/
theorem embed_query_unfitted (q : List String) :
    embed_query LightweightEmbeddings.init q =
      .error (.valueError "Vectorizer not fitted yet") := rfl

/-- C8: `search` returns its pairs with scores in non-increasing order,
and when `k` is at least the number of stored chunks (with the
chunk/vector invariant of the store) the returned chunks are exactly the
stored chunk texts, each appearing once. -/
theorem search_sorted_and_complete (q : List ℚ) (vs : Vectorstore) (k : ℕ) :
    List.Pairwise (fun a b : String × ℚ => b.2 ≤ a.2) (search q vs k) ∧
    (vs.vectors.length = vs.texts.length → vs.texts.length ≤ k →
      List.Perm ((search q vs k).map Prod.fst) vs.texts) := by
  have hsorted : List.Pairwise
      (fun i j => (similarities q vs).getD i 0 ≤ (similarities q vs).getD j 0)
      (argsort (similarities q vs)) := by
    haveI : IsTotal ℕ
        (fun i j => (similarities q vs).getD i 0 ≤ (similarities q vs).getD j 0) :=
      ⟨fun a b => le_total _ _⟩
    haveI : IsTrans ℕ
        (fun i j => (similarities q vs).getD i 0 ≤ (similarities q vs).getD j 0) :=
      ⟨fun a b c hab hbc => le_trans hab hbc⟩
    exact List.sorted_insertionSort _ _
  have hrev : List.Pairwise
      (fun i j => (similarities q vs).getD j 0 ≤ (similarities q vs).getD i 0)
      (rankingDesc (similarities q vs)) := List.pairwise_reverse.mpr hsorted
  have htake : List.Pairwise
      (fun i j => (similarities q vs).getD j 0 ≤ (similarities q vs).getD i 0)
      (searchRanking (similarities q vs) k) :=
    hrev.sublist (List.take_sublist k _)
  constructor
  · simp only [search]
    exact List.pairwise_map.mpr htake
  · intro hlen hk
    have hslen : (similarities q vs).length = vs.texts.length := by
      simp [similarities, hlen]
    have hfull : searchRanking (similarities q vs) k =
        rankingDesc (similarities q vs) := by
      rw [searchRanking]
      apply List.take_of_length_le
      rw [rankingDesc, List.length_reverse, length_argsort, hslen]
      exact hk
    have hperm : List.Perm (rankingDesc (similarities q vs))
        (List.range vs.texts.length) := by
      rw [rankingDesc]
      refine ((List.reverse_perm _).trans (List.perm_insertionSort _ _)).trans ?_
      rw [hslen]
    have hmap : (search q vs k).map Prod.fst =
        (searchRanking (similarities q vs) k).map (fun i => vs.texts.getD i "") := by
      simp [search, List.map_map]
    rw [hmap, hfull]
    have := hperm.map (fun i => vs.texts.getD i "")
    rwa [map_getD_range vs.texts ""] at this
/-- Witness for C8 at a concrete store: with two chunks and k = 5 the
result is a permutation of all stored chunk texts. -/
theorem search_sorted_and_complete_witness :
    List.Perm ((search [1] ⟨[[1], [1]], ["a", "b"]⟩ 5).map Prod.fst) ["a", "b"] := by
  have h := search_sorted_and_complete [1] ⟨[[1], [1]], ["a", "b"]⟩ 5
  exact h.2 rfl (by norm_num)

/-- C1 counterexample: two chunks with equal cosine similarity to the
query (both scores are 1), yet `search` returns the chunk with the
higher insertion index ("b", index 1) before the lower one ("a",
index 0) — the claimed lower-index-first tie-break does not hold. -/
theorem search_tie_break_cex :
    similarities [1] ⟨[[1], [1]], ["a", "b"]⟩ = [1, 1] ∧
    search [1] ⟨[[1], [1]], ["a", "b"]⟩ 2 = [("b", 1), ("a", 1)] := by
  constructor
  · simp [similarities, cosineSim, dotQ]
  · simp [search, searchRanking, rankingDesc, argsort, similarities, cosineSim, dotQ]

/-- C1 amended: among equal scores the chunk with the HIGHER original
insertion index ranks first: `argsort` is stable ascending, so the
reversal puts the later of two tied indices before the earlier one in
the descending ranking (and hence in the top-k selection whenever `k`
covers the whole index). -/
theorem search_tie_break_higher_index_first (q : List ℚ) (vs : Vectorstore)
    (k i j : ℕ) (hij : i < j) (hj : j < (similarities q vs).length)
    (heq : (similarities q vs).getD i 0 = (similarities q vs).getD j 0) :
    List.Sublist [j, i] (rankingDesc (similarities q vs)) ∧
    ((similarities q vs).length ≤ k →
      List.Sublist [j, i] (searchRanking (similarities q vs) k)) := by
  have hr : (similarities q vs).getD i 0 ≤ (similarities q vs).getD j 0 :=
    le_of_eq heq
  have hsub : List.Sublist [i, j] (List.range (similarities q vs).length) :=
    pair_sublist_range hij hj
  have h1 : List.Sublist [i, j] (argsort (similarities q vs)) :=
    List.pair_sublist_insertionSort hr hsub
  have h2 : List.Sublist [j, i] (rankingDesc (similarities q vs)) := by
    rw [rankingDesc]
    simpa using h1.reverse
  refine ⟨h2, ?_⟩
  intro hk
  have hfull : searchRanking (similarities q vs) k =
      rankingDesc (similarities q vs) := by
    rw [searchRanking]
    apply List.take_of_length_le
    rw [rankingDesc, List.length_reverse, length_argsort]
    exact hk
  rw [hfull]
  exact h2

/-- Witness for the amended C1 at the concrete tied store: index 1 is
ranked before index 0. -/
theorem search_tie_break_higher_index_first_witness :
    List.Sublist [1, 0]
      (searchRanking (similarities [1] ⟨[[1], [1]], ["a", "b"]⟩) 2) := by
  have h := search_tie_break_higher_index_first [1] ⟨[[1], [1]], ["a", "b"]⟩
    2 0 1 (by norm_num) (by simp [similarities])
    (by simp [similarities, cosineSim, dotQ])
  exact h.2 (by simp [similarities])

/-- C2 counterexample: a run whose only failure is the summary step,
after the index has already been written: the result is a structured
error, yet the previously persisted index for "doc" has been replaced by
the new one — the previous `Indexed` state is not untouched. -/
theorem process_document_rollback_cex :
    (process_document ⟨[], [("doc", some (.valid ⟨[], ["old"]⟩))], [], ⟨none, none, []⟩⟩
      "doc.pdf" (.ok "text") 3 (.ok ["c1"]) (.ok ⟨[], ["new"]⟩) .ok
      (.error "LLM failure")).2 = errorResult "LLM failure" ∧
    (process_document ⟨[], [("doc", some (.valid ⟨[], ["old"]⟩))], [], ⟨none, none, []⟩⟩
      "doc.pdf" (.ok "text") 3 (.ok ["c1"]) (.ok ⟨[], ["new"]⟩) .ok
      (.error "LLM failure")).1.vstores = [("doc", some (.valid ⟨[], ["new"]⟩))] ∧
    (process_document ⟨[], [("doc", some (.valid ⟨[], ["old"]⟩))], [], ⟨none, none, []⟩⟩
      "doc.pdf" (.ok "text") 3 (.ok ["c1"]) (.ok ⟨[], ["new"]⟩) .ok
      (.error "LLM failure")).1.vstores ≠
      [("doc", some (.valid ⟨[], ["old"]⟩))] := by
  refine ⟨rfl, rfl, ?_⟩
  decide

set_option maxRecDepth 4096 in
/-- C2 amended: every failing `process_document` run removes the staged
raw file and returns the structured error result; the previously
persisted index is untouched when the failure happens at extraction,
chunking, embedding, or a clean save failure (observed through
`load_vectorstore`, since the directory may have been created); an
interrupted save leaves a partial (corrupt) index file in place of the
previous one; and a failure after the save (the summary step) leaves the
newly written index on disk. -/
theorem process_document_failure_cases (st : AppState) (filename : String)
    (extract : Except String String) (pages : ℕ)
    (split : Except String (List String)) (embed : Except String Vectorstore)
    (saveOut : SaveOutcome) (summarize : Except String String) :
    (∀ m, extract = Except.error m →
      process_document st filename extract pages split embed saveOut summarize =
        ({ st with uploads := cleanUploads st.uploads (sanitize_filename filename) },
         errorResult m)) ∧
    (∀ t m, extract = Except.ok t → split = Except.error m →
      process_document st filename extract pages split embed saveOut summarize =
        ({ st with uploads := cleanUploads st.uploads (sanitize_filename filename) },
         errorResult m)) ∧
    (∀ t cs m, extract = Except.ok t → split = Except.ok cs →
      embed = Except.error m →
      process_document st filename extract pages split embed saveOut summarize =
        ({ st with uploads := cleanUploads st.uploads (sanitize_filename filename) },
         errorResult m)) ∧
    (∀ t cs store m, extract = Except.ok t → split = Except.ok cs →
      embed = Except.ok store → saveOut = SaveOutcome.failClean m →
      (process_document st filename extract pages split embed saveOut summarize).2 =
        errorResult ("Failed to save vectorstore: " ++ m) ∧
      (process_document st filename extract pages split embed saveOut summarize).1.uploads =
        cleanUploads st.uploads (sanitize_filename filename) ∧
      (process_document st filename extract pages split embed saveOut summarize).1.chat =
        st.chat ∧
      (process_document st filename extract pages split embed saveOut summarize).1.storeFS =
        st.storeFS ∧
      (∀ d, load_vectorstore
          (process_document st filename extract pages split embed saveOut summarize).1.vstores d =
        load_vectorstore st.vstores d)) ∧
    (∀ t cs store m, extract = Except.ok t → split = Except.ok cs →
      embed = Except.ok store → saveOut = SaveOutcome.failPartial m →
      process_document st filename extract pages split embed saveOut summarize =
        ({ st with
            uploads := cleanUploads st.uploads (sanitize_filename filename),
            vstores := aInsert st.vstores (stem (sanitize_filename filename))
              (some (.corrupt 0)) },
         errorResult ("Failed to save vectorstore: " ++ m))) ∧
    (∀ t cs store m, extract = Except.ok t → split = Except.ok cs →
      embed = Except.ok store → saveOut = SaveOutcome.ok →
      summarize = Except.error m →
      process_document st filename extract pages split embed saveOut summarize =
        ({ st with
            uploads := cleanUploads st.uploads (sanitize_filename filename),
            vstores := aInsert st.vstores (stem (sanitize_filename filename))
              (some (.valid store)) },
         errorResult m)) := by
  refine ⟨?_, ?_, ?_, ?_, ?_, ?_⟩
  · intro m h
    subst h
    rfl
  · intro t m h1 h2
    subst h1
    subst h2
    rfl
  · intro t cs m h1 h2 h3
    subst h1
    subst h2
    subst h3
    rfl
  · intro t cs store m h1 h2 h3 h4
    subst h1
    subst h2
    subst h3
    subst h4
    refine ⟨rfl, rfl, rfl, rfl, ?_⟩
    intro d
    show load_vectorstore
      (match aLookup st.vstores (stem (sanitize_filename filename)) with
       | none => aInsert st.vstores (stem (sanitize_filename filename)) none
       | some _ => st.vstores) d = load_vectorstore st.vstores d
    cases hvd : aLookup st.vstores (stem (sanitize_filename filename)) with
    | none =>
      simp only [load_vectorstore, load_vectorstore_inner, aLookup_aInsert]
      by_cases hd : stem (sanitize_filename filename) = d
      · subst hd
        simp [hvd]
      · simp [hd]
    | some b => rfl
  · intro t cs store m h1 h2 h3 h4
    subst h1
    subst h2
    subst h3
    subst h4
    rfl
  · intro t cs store m h1 h2 h3 h4 h5
    subst h1
    subst h2
    subst h3
    subst h4
    subst h5
    rfl

/-- Witness for the amended C2 at a concrete run failing at text
extraction: the staged file is gone again and the structured error is
returned. -/
theorem process_document_failure_cases_witness :
    process_document ⟨[], [], [], ⟨none, none, []⟩⟩ "doc.pdf"
      (.error "no text") 0 (.ok []) (.ok ⟨[], []⟩) .ok (.ok "s") =
    (⟨[], [], [], ⟨none, none, []⟩⟩, errorResult "no text") := by
  have h := (process_document_failure_cases ⟨[], [], [], ⟨none, none, []⟩⟩ "doc.pdf"
    (.error "no text") 0 (.ok []) (.ok ⟨[], []⟩) .ok (.ok "s")).1 "no text" rfl
  rw [h]
  rfl

/-- C4 counterexample: `export_chat` on a stored document with the
unsupported format "xml" does not fail — the internal `ValueError` is
caught and an ordinary string is returned. -/
theorem export_chat_unsupported_cex :
    export_chat [("doc", ⟨[], "t0", "t0"⟩)] "doc" "xml" =
      .ok ("Export error: " ++ ("Unsupported format: " ++ "xml")) := rfl

/-- C4 amended: for a document with stored history, a format other than
json/csv (case-insensitive) makes `export_chat` return the string
"Export error: Unsupported format: ..." (the internally raised
`UnsupportedFormatError`, caught at the method boundary), while json and
csv return the serialized log. -/
theorem export_chat_behaviour (hist : History) (pdf fmt : String)
    (cd : ChatData) (hlk : aLookup hist pdf = some cd) :
    (toLowerStr fmt ≠ "json" → toLowerStr fmt ≠ "csv" →
      export_chat hist pdf fmt =
        .ok ("Export error: " ++ ("Unsupported format: " ++ fmt))) ∧
    (toLowerStr fmt = "json" →
      export_chat hist pdf fmt = .ok (jsonDumpChatData cd)) ∧
    (toLowerStr fmt = "csv" →
      export_chat hist pdf fmt = .ok (export_csv cd)) := by
  refine ⟨?_, ?_, ?_⟩
  · intro h1 h2
    simp [export_chat, export_chat_inner, hlk, h1, h2, ChatError.msg]
  · intro h1
    simp [export_chat, export_chat_inner, hlk, h1]
  · intro h1
    simp [export_chat, export_chat_inner, hlk, h1]

/-- Witness for the amended C4: csv export of a concrete stored log. -/
theorem export_chat_behaviour_witness :
    export_chat [("doc", ⟨[], "t0", "t0"⟩)] "doc" "csv" =
      .ok (export_csv ⟨[], "t0", "t0"⟩) := by
  have h := export_chat_behaviour [("doc", ⟨[], "t0", "t0"⟩)] "doc" "csv"
    ⟨[], "t0", "t0"⟩ rfl
  exact h.2.2 rfl

/-- C5: when the durable file exists but fails to parse, construction
does not raise (the parse error is confined to the inner reader): the
store starts with an empty in-memory log, a copy of the unreadable file
is preserved under the `.corrupted` suffix, and the original file is not
deleted. -/
theorem load_history_corrupt_recovery (fs : StoreFS) (b : HistBlob)
    (hst : fs.storage = some b) (hbad : jsonLoadHist b = none) :
    load_history_inner fs = .error (.jsonDecodeError "Expecting value") ∧
    load_history fs = ([], { fs with corrupted := some b }) := by
  have hinner : load_history_inner fs =
      .error (.jsonDecodeError "Expecting value") := by
    simp [load_history_inner, hst, hbad]
  refine ⟨hinner, ?_⟩
  simp [load_history, hinner, hst]

/-- Witness for C5 at a concrete corrupted file. -/
theorem load_history_corrupt_recovery_witness :
    load_history ⟨some (.corrupt "x"), none, []⟩ =
      ([], ⟨some (.corrupt "x"), some (.corrupt "x"), []⟩) := by
  have h := load_history_corrupt_recovery ⟨some (.corrupt "x"), none, []⟩
    (.corrupt "x") rfl rfl
  exact h.2

/-- C6: saving an index and loading it back yields exactly the saved
index, hence identical `search` results for any fixed query; and loading
when no saved index exists at the path yields `None`, not an error. -/
theorem save_load_roundtrip (fs : VectorFS) (doc : String)
    (store : Vectorstore) (q : List ℚ) (k : ℕ) :
    load_vectorstore (save_vectorstore fs doc store .ok).1 doc = some store ∧
    (load_vectorstore (save_vectorstore fs doc store .ok).1 doc).map
      (fun s => search q s k) = some (search q store k) ∧
    (aLookup fs doc = none → load_vectorstore fs doc = none) := by
  have h1 : load_vectorstore (save_vectorstore fs doc store .ok).1 doc =
      some store := by
    simp [save_vectorstore, load_vectorstore, load_vectorstore_inner,
      aLookup_aInsert]
  refine ⟨h1, ?_, ?_⟩
  · rw [h1]
    rfl
  · intro h
    simp [load_vectorstore, load_vectorstore_inner, h]

/-- Witness for C6 at a concrete store. -/
theorem save_load_roundtrip_witness :
    load_vectorstore (save_vectorstore [] "d" ⟨[], ["a"]⟩ .ok).1 "d" =
      some ⟨[], ["a"]⟩ ∧
    load_vectorstore [] "d" = none := by
  have h := save_load_roundtrip [] "d" ⟨[], ["a"]⟩ [] 0
  exact ⟨h.1, h.2.2 rfl⟩

/-- C10: `load_vectorstore` returns `None` rather than raising in every
failure mode: missing directory, directory without a vectors file, and a
vectors file whose deserialization fails (where the inner reader raises
and the wrapper catches). -/
theorem load_vectorstore_total_none (fs : VectorFS) (doc : String) (n : ℕ) :
    (aLookup fs doc = none → load_vectorstore fs doc = none) ∧
    (aLookup fs doc = some none → load_vectorstore fs doc = none) ∧
    (aLookup fs doc = some (some (.corrupt n)) →
      load_vectorstore_inner fs doc = .error "UnpicklingError" ∧
      load_vectorstore fs doc = none) := by
  refine ⟨?_, ?_, ?_⟩ <;> intro h <;>
    simp [load_vectorstore, load_vectorstore_inner, h]

/-- Witness for C10 at a concrete corrupt pickle. -/
theorem load_vectorstore_total_none_witness :
    load_vectorstore_inner [("d", some (.corrupt 0))] "d" =
      .error "UnpicklingError" ∧
    load_vectorstore [("d", some (.corrupt 0))] "d" = none :=
  (load_vectorstore_total_none [("d", some (.corrupt 0))] "d" 0).2.2 rfl

/-- C9 counterexample: deleting a document that has no stored file, no
index and no chat history is not a state-preserving no-op, and a second
invocation does not leave the state of the first: each call backs up
the (unchanged) history file under a fresh timestamped name, so the
backup files differ. -/
theorem delete_pdf_idempotent_cex :
    (delete_pdf ⟨[], [], [], ⟨some (.valid []), none, []⟩⟩ "doc" "t1").1 ≠
      ⟨[], [], [], ⟨some (.valid []), none, []⟩⟩ ∧
    (delete_pdf (delete_pdf ⟨[], [], [], ⟨some (.valid []), none, []⟩⟩
        "doc" "t1").1 "doc" "t2").1 ≠
      (delete_pdf ⟨[], [], [], ⟨some (.valid []), none, []⟩⟩ "doc" "t1").1 := by
  constructor <;> decide

/-- C9 amended: `delete_pdf` reports success, deletes the persisted
index for the document (its directory entry is erased, so no lookup of
it remains), clears the document's conversation log (erased from the
in-memory history, which is re-persisted), and unlinks every staged file
matching the document's glob.  On a document with no stored file, no
index and no chat history this leaves the document state — the uploads,
the index directory, the in-memory history — unchanged (a no-op
success), with the durable history file rewritten to the serialization
of the unchanged history; invoking it twice then leaves the same
document state as invoking it once, the two runs differing only in the
timestamped backup copies. -/
theorem delete_pdf_deletes_and_absent_noop (st : AppState) (pdf t : String) :
    (delete_pdf st pdf t).2 = true ∧
    (delete_pdf st pdf t).1.vstores = aErase st.vstores pdf ∧
    aLookup (delete_pdf st pdf t).1.vstores pdf = none ∧
    (delete_pdf st pdf t).1.chat = aErase st.chat pdf ∧
    aLookup (delete_pdf st pdf t).1.chat pdf = none ∧
    (delete_pdf st pdf t).1.uploads =
      st.uploads.filter (fun f => !globMatches pdf f) ∧
    (delete_pdf st pdf t).1.storeFS.storage =
      some (.valid (aErase st.chat pdf)) ∧
    ((∀ f ∈ st.uploads, globMatches pdf f = false) →
      aLookup st.vstores pdf = none → aLookup st.chat pdf = none →
      (delete_pdf st pdf t).1.uploads = st.uploads ∧
      (delete_pdf st pdf t).1.vstores = st.vstores ∧
      (delete_pdf st pdf t).1.chat = st.chat ∧
      (delete_pdf st pdf t).1.storeFS.storage = some (.valid st.chat) ∧
      (∀ t2, (delete_pdf (delete_pdf st pdf t).1 pdf t2).1.uploads =
          (delete_pdf st pdf t).1.uploads ∧
        (delete_pdf (delete_pdf st pdf t).1 pdf t2).1.vstores =
          (delete_pdf st pdf t).1.vstores ∧
        (delete_pdf (delete_pdf st pdf t).1 pdf t2).1.chat =
          (delete_pdf st pdf t).1.chat ∧
        (delete_pdf (delete_pdf st pdf t).1 pdf t2).1.storeFS.storage =
          (delete_pdf st pdf t).1.storeFS.storage)) := by
  have hvd : (delete_pdf st pdf t).1.vstores = aErase st.vstores pdf := rfl
  have hcd : (delete_pdf st pdf t).1.chat = aErase st.chat pdf := rfl
  refine ⟨rfl, hvd, ?_, hcd, ?_, rfl, rfl, ?_⟩
  · rw [hvd]
    exact aLookup_aErase_self _ _
  · rw [hcd]
    exact aLookup_aErase_self _ _
  · intro h1 h2 h3
    have hup : st.uploads.filter (fun f => !globMatches pdf f) =
        st.uploads := by
      apply List.filter_eq_self.mpr
      intro a ha
      simp [h1 a ha]
    have hvs := aErase_of_lookup_none st.vstores pdf h2
    have hch := aErase_of_lookup_none st.chat pdf h3
    have hmain : (delete_pdf st pdf t).1 =
        { st with storeFS := save_history st.chat (create_backup st.storeFS t) } := by
      simp [delete_pdf, clear_history, hup, hvs, hch]
    have hmain2 : ∀ t2, (delete_pdf (delete_pdf st pdf t).1 pdf t2).1 =
        ⟨st.uploads, st.vstores, st.chat,
          save_history st.chat (create_backup (delete_pdf st pdf t).1.storeFS t2)⟩ := by
      intro t2
      rw [hmain]
      simp [delete_pdf, clear_history, hup, hvs, hch]
    refine ⟨?_, ?_, ?_, ?_, ?_⟩
    · rw [hmain]
    · rw [hmain]
    · rw [hmain]
    · rw [hmain]
      rfl
    · intro t2
      refine ⟨?_, ?_, ?_, ?_⟩ <;> rw [hmain2 t2, hmain] <;> rfl

/-- Witness for the amended C9: on a state actually holding a staged
file, an index and a chat log for "doc", deletion leaves no index entry,
no chat entry and no matching staged file; and on a state holding only
an unrelated upload, deletion is a no-op success on the uploads. -/
theorem delete_pdf_deletes_and_absent_noop_witness :
    aLookup (delete_pdf ⟨["doc.pdf"], [("doc", some (.valid ⟨[], ["a"]⟩))],
      [("doc", ⟨[], "t0", "t0"⟩)], ⟨some (.valid []), none, []⟩⟩
      "doc" "t").1.vstores "doc" = none ∧
    aLookup (delete_pdf ⟨["doc.pdf"], [("doc", some (.valid ⟨[], ["a"]⟩))],
      [("doc", ⟨[], "t0", "t0"⟩)], ⟨some (.valid []), none, []⟩⟩
      "doc" "t").1.chat "doc" = none ∧
    (delete_pdf ⟨["doc.pdf"], [("doc", some (.valid ⟨[], ["a"]⟩))],
      [("doc", ⟨[], "t0", "t0"⟩)], ⟨some (.valid []), none, []⟩⟩
      "doc" "t").1.uploads = [] ∧
    (delete_pdf ⟨["other.pdf"], [], [], ⟨none, none, []⟩⟩ "doc" "t").2 = true ∧
    (delete_pdf ⟨["other.pdf"], [], [], ⟨none, none, []⟩⟩ "doc" "t").1.uploads =
      ["other.pdf"] := by
  have h1 := delete_pdf_deletes_and_absent_noop
    ⟨["doc.pdf"], [("doc", some (.valid ⟨[], ["a"]⟩))],
      [("doc", ⟨[], "t0", "t0"⟩)], ⟨some (.valid []), none, []⟩⟩ "doc" "t"
  have h2 := delete_pdf_deletes_and_absent_noop
    ⟨["other.pdf"], [], [], ⟨none, none, []⟩⟩ "doc" "t"
  refine ⟨h1.2.2.1, h1.2.2.2.2.1, ?_, h2.1,
    (h2.2.2.2.2.2.2.2 (by decide) rfl rfl).1⟩
  rw [h1.2.2.2.2.2.1]
  decide

end Lumina
